import Mathlib

/-!
Verification of `src/04-google-gauth-structured-output/strategy-analysis.ts`.

The file shallowly embeds the response-strategy classifier
`analyzeStructuredOutputStrategy` and the reporting function
`logStrategyAnalysis` (key-match portion) and proves the spec claims
about them.  JavaScript values relevant to the classifier are modelled
as follows: JSON values by the inductive `Json`, the builtin
`JSON.parse` by the executable recursive-descent function `jsonParse`
(same grammar: RFC 8259 JSON with ECMA whitespace, rejecting trailing
garbage; duplicate object keys resolved last-wins as in JS), message
objects by the structure `Message` (optional fields become `Option`),
and JS truthiness by `Json.truthy`.
-/

/-- JSON values as produced by `JSON.parse`.  A number literal is kept
exactly as the decimal value `mantissa * 10 ^ exp10`, which is faithful
for every literal the grammar admits and keeps evaluation kernel-
reducible. -/
inductive Json where
  | null : Json
  | bool (b : Bool) : Json
  | num (mantissa : Int) (exp10 : Int) : Json
  | str (s : String) : Json
  | arr (elems : List Json) : Json
  | obj (fields : List (String × Json)) : Json

/-- JavaScript truthiness of a parsed JSON value: `null`, `false`, `0`
(any representation, `-0` and `0.0` included) and `""` are falsy; every
other value (including `[]` and an empty object) is truthy. -/
def Json.truthy : Json → Bool
  | .null => false
  | .bool b => b
  | .num m _ => decide (m ≠ 0)
  | .str s => decide (s ≠ "")
  | .arr _ => true
  | .obj _ => true

/-- The left-brace character, spelled by code point. -/
def lbraceChar : Char := Char.ofNat 123

/-- The right-brace character, spelled by code point. -/
def rbraceChar : Char := Char.ofNat 125

/-- JSON insignificant whitespace (ECMA-404 / `JSON.parse`). -/
def isWsChar (c : Char) : Bool := c = ' ' || c = '\t' || c = '\n' || c = '\r'

/-- Drop leading JSON whitespace. -/
def skipWs : List Char → List Char
  | [] => []
  | c :: cs => if isWsChar c then skipWs cs else c :: cs

/-- ASCII decimal digit test. -/
def isDigitChar (c : Char) : Bool := '0' ≤ c && c ≤ '9'

/-- Value of an ASCII decimal digit. -/
def digitVal (c : Char) : Nat := c.toNat - 48

/-- Read a digit list as a natural number, most significant first. -/
def digitsToNat (ds : List Char) : Nat := ds.foldl (fun acc c => acc * 10 + digitVal c) 0

/-- ASCII hexadecimal digit test. -/
def isHexChar (c : Char) : Bool :=
  isDigitChar c || ('a' ≤ c && c ≤ 'f') || ('A' ≤ c && c ≤ 'F')

/-- Value of an ASCII hexadecimal digit. -/
def hexVal (c : Char) : Nat :=
  if isDigitChar c then c.toNat - 48
  else if 'a' ≤ c && c ≤ 'f' then c.toNat - 87
  else c.toNat - 55

/-- Integer part of a JSON number: `0`, or a nonzero digit followed by
digits (JSON forbids leading zeros). -/
def parseIntDigits : List Char → Option (List Char × List Char)
  | [] => none
  | c :: cs =>
    if c = '0' then some ([c], cs)
    else if isDigitChar c then
      let ds := cs.takeWhile isDigitChar
      some (c :: ds, cs.drop ds.length)
    else none

/-- Optional fraction part `.digits` of a JSON number; yields the
fraction digits (empty when absent). -/
def parseFracDigits : List Char → Option (List Char × List Char)
  | '.' :: cs =>
    let ds := cs.takeWhile isDigitChar
    if ds.isEmpty then none else some (ds, cs.drop ds.length)
  | cs => some ([], cs)

/-- Optional exponent part `e[+-]digits`; yields the exponent sign and
digits (empty when absent). -/
def parseExpDigits : List Char → Option (Bool × List Char × List Char)
  | [] => some (false, [], [])
  | c :: cs =>
    if c = 'e' || c = 'E' then
      match cs with
      | '+' :: cs2 =>
        let ds := cs2.takeWhile isDigitChar
        if ds.isEmpty then none else some (false, ds, cs2.drop ds.length)
      | '-' :: cs2 =>
        let ds := cs2.takeWhile isDigitChar
        if ds.isEmpty then none else some (true, ds, cs2.drop ds.length)
      | cs2 =>
        let ds := cs2.takeWhile isDigitChar
        if ds.isEmpty then none else some (false, ds, cs2.drop ds.length)
    else some (false, [], c :: cs)

/-- Exact decimal value of a parsed JSON number, as the pair
`(mantissa, exp10)` with value `mantissa * 10 ^ exp10`. -/
def numOfParts (neg : Bool) (intDs fracDs : List Char) (negExp : Bool) (expDs : List Char) : Json :=
  let mNat : Nat := digitsToNat (intDs ++ fracDs)
  let m : Int := if neg then -(mNat : Int) else (mNat : Int)
  let e : Int := (if negExp then -(digitsToNat expDs : Int) else (digitsToNat expDs : Int)) - (fracDs.length : Int)
  .num m e

/-- Parse a JSON number after the optional leading minus sign. -/
def parseNumCore (neg : Bool) (cs : List Char) : Option (Json × List Char) :=
  match parseIntDigits cs with
  | none => none
  | some (intDs, r1) =>
    match parseFracDigits r1 with
    | none => none
    | some (fracDs, r2) =>
      match parseExpDigits r2 with
      | none => none
      | some (negExp, expDs, r3) => some (numOfParts neg intDs fracDs negExp expDs, r3)

/-- Parse a JSON number (with optional leading minus sign). -/
def parseNumber : List Char → Option (Json × List Char)
  | '-' :: cs => parseNumCore true cs
  | cs => parseNumCore false cs

/-- Translate a single-character JSON string escape. -/
def escChar (c : Char) : Char :=
  if c = 'b' then Char.ofNat 8
  else if c = 'f' then Char.ofNat 12
  else if c = 'n' then '\n'
  else if c = 'r' then '\r'
  else if c = 't' then '\t'
  else c

/-- Whether a character is a legal single-character escape after `\`. -/
def isSimpleEsc (c : Char) : Bool :=
  c = '"' || c = '\\' || c = '/' || c = 'b' || c = 'f' || c = 'n' || c = 'r' || c = 't'

/-- Parse the body of a JSON string after the opening quote, up to and
including the closing quote.  `\uXXXX` escapes are mapped through
`Char.ofNat` (lone surrogates degrade to the null character, a
harmless simplification of UTF-16 pairing).  The fuel argument is an
upper bound on the characters consumed. -/
def parseStringBody : Nat → List Char → Option (List Char × List Char)
  | 0, _ => none
  | _ + 1, [] => none
  | fuel + 1, c :: cs =>
    if c = '"' then some ([], cs)
    else if c = '\\' then
      match cs with
      | [] => none
      | e :: cs2 =>
        if isSimpleEsc e then
          match parseStringBody fuel cs2 with
          | some (out, rest) => some (escChar e :: out, rest)
          | none => none
        else if e = 'u' then
          match cs2 with
          | h1 :: h2 :: h3 :: h4 :: cs3 =>
            if isHexChar h1 && isHexChar h2 && isHexChar h3 && isHexChar h4 then
              match parseStringBody fuel cs3 with
              | some (out, rest) =>
                some (Char.ofNat (((hexVal h1 * 16 + hexVal h2) * 16 + hexVal h3) * 16 + hexVal h4) :: out, rest)
              | none => none
            else none
          | _ => none
        else none
    else if c.toNat < 32 then none
    else
      match parseStringBody fuel cs with
      | some (out, rest) => some (c :: out, rest)
      | none => none

/-- Insert a key into an object under construction with JavaScript
property semantics: a duplicate key keeps its original position but
takes the later value. -/
def insertField (fields : List (String × Json)) (k : String) (v : Json) : List (String × Json) :=
  match fields with
  | [] => [(k, v)]
  | (k0, v0) :: rest => if k0 = k then (k0, v) :: rest else (k0, v0) :: insertField rest k v

mutual

/-- Parse one JSON value, returning it and the unconsumed remainder. -/
def parseValue : Nat → List Char → Option (Json × List Char)
  | 0, _ => none
  | fuel + 1, cs =>
    match skipWs cs with
    | [] => none
    | c :: cs2 =>
      if c = lbraceChar then
        match skipWs cs2 with
        | d :: rest =>
          if d = rbraceChar then some (.obj [], rest)
          else
            match parseMembers fuel cs2 [] with
            | some (fields, r) => some (.obj fields, r)
            | none => none
        | [] => none
      else if c = '[' then
        match skipWs cs2 with
        | ']' :: rest => some (.arr [], rest)
        | _ =>
          match parseElems fuel cs2 [] with
          | some (elems, r) => some (.arr elems, r)
          | none => none
      else if c = '"' then
        match parseStringBody (cs2.length + 1) cs2 with
        | some (out, rest) => some (.str (String.mk out), rest)
        | none => none
      else if c = 't' then
        match cs2 with
        | 'r' :: 'u' :: 'e' :: rest => some (.bool true, rest)
        | _ => none
      else if c = 'f' then
        match cs2 with
        | 'a' :: 'l' :: 's' :: 'e' :: rest => some (.bool false, rest)
        | _ => none
      else if c = 'n' then
        match cs2 with
        | 'u' :: 'l' :: 'l' :: rest => some (.null, rest)
        | _ => none
      else if c = '-' || isDigitChar c then parseNumber (c :: cs2)
      else none

/-- Parse the members of a JSON object after the opening brace, up to
and including the closing brace. -/
def parseMembers : Nat → List Char → List (String × Json) → Option (List (String × Json) × List Char)
  | 0, _, _ => none
  | fuel + 1, cs, acc =>
    match skipWs cs with
    | '"' :: cs2 =>
      match parseStringBody (cs2.length + 1) cs2 with
      | none => none
      | some (keyChars, r1) =>
        match skipWs r1 with
        | ':' :: r2 =>
          match parseValue fuel r2 with
          | none => none
          | some (v, r3) =>
            let acc2 := insertField acc (String.mk keyChars) v
            match skipWs r3 with
            | ',' :: r4 => parseMembers fuel r4 acc2
            | d :: r4 => if d = rbraceChar then some (acc2, r4) else none
            | [] => none
        | _ => none
    | _ => none

/-- Parse the elements of a JSON array after the opening bracket, up to
and including the closing bracket. -/
def parseElems : Nat → List Char → List Json → Option (List Json × List Char)
  | 0, _, _ => none
  | fuel + 1, cs, acc =>
    match parseValue fuel cs with
    | none => none
    | some (v, r1) =>
      match skipWs r1 with
      | ',' :: r2 => parseElems fuel r2 (acc ++ [v])
      | ']' :: r2 => some (acc ++ [v], r2)
      | _ => none

end

/-- Model of the JavaScript builtin `JSON.parse`: `some v` when the
whole input is one JSON value surrounded by optional whitespace, `none`
when `JSON.parse` would throw.  The fuel bounds the mutual-recursion
depth, which never exceeds two steps per input character. -/
def jsonParse (s : String) : Option Json :=
  match parseValue (2 * s.data.length + 2) s.data with
  | none => none
  | some (v, rest) => if (skipWs rest).isEmpty then some v else none

example : jsonParse "false" = some (Json.bool false) := rfl
example : jsonParse "null" = some Json.null := rfl
example : jsonParse "0" = some (Json.num 0 0) := rfl
example : jsonParse "\x7b\"title\":\"x\",\"year\":1\x7d" =
    some (Json.obj [("title", Json.str "x"), ("year", Json.num 1 0)]) := rfl
example : jsonParse "Here is my answer in prose." = none := rfl
example : jsonParse "" = none := rfl
example : jsonParse " [1, 2.5, true] " =
    some (Json.arr [Json.num 1 0, Json.num 25 (-1), Json.bool true]) := rfl
example : jsonParse "01" = none := rfl
example : jsonParse "\"a\\nb\"" = some (Json.str "a\nb") := rfl

/-- Substring containment, modelling JavaScript `String.prototype.includes`. -/
def strContains (s pat : String) : Bool := decide (pat.data <:+: s.data)

/-- One entry of a message's `tool_calls` array; its `name` field may be
absent. -/
structure ToolCall where
  name : Option String

/-- The `content` field of a message: absent, a text string, or some
non-string value (for example a content-block array), carried opaquely. -/
inductive MsgContent where
  | undef : MsgContent
  | str (s : String) : MsgContent
  | nonString (v : Json) : MsgContent

/-- One conversation message as the classifier sees it.  The source is
duck-typed (`messages: any[]`); the fields below are exactly the ones
the source reads, with `Option` standing for a possibly-absent (or
`undefined`-valued) field. -/
structure Message where
  /-- `m.constructor?.name` (absent models an exotic object). -/
  ctorName : Option String
  /-- Result of `m._getType?.()`; `none` when the method is absent or
  returns `undefined`. -/
  getType : Option String
  /-- `m.content`. -/
  content : MsgContent
  /-- `m.tool_calls`. -/
  tool_calls : Option (List ToolCall)
  /-- `m.name`. -/
  name : Option String

/-- The four strategy labels of `StrategyType` in the source. -/
inductive StrategyType where
  | TOOL_CALLING : StrategyType
  | PROVIDER_JSON : StrategyType
  | PROVIDER_NO_JSON : StrategyType
  | UNKNOWN : StrategyType
  deriving DecidableEq

/-- The classifier's output record `StrategyAnalysis`.  An absent
`parsedJson` key is `none`. -/
structure StrategyAnalysis where
  strategy : StrategyType
  structuredOutputWorked : Bool
  details : String
  parsedJson : Option Json

/-- Predicate of strategy-analysis.ts line 32: `m.tool_calls?.length > 0`. -/
def msgHasToolCalls (m : Message) : Bool :=
  match m.tool_calls with
  | some tcs => decide (0 < tcs.length)
  | none => false

/-- Predicate of strategy-analysis.ts line 35:
`m.name?.includes("extract") || m.name?.includes("MovieRecommendation")`. -/
def msgNameMarker (m : Message) : Bool :=
  match m.name with
  | some n => strContains n "extract" || strContains n "MovieRecommendation"
  | none => false

/-- Predicate of strategy-analysis.ts line 42:
`m.constructor?.name?.includes("AI") || m._getType?.() === "ai"`. -/
def isAiMessage (m : Message) : Bool :=
  (match m.ctorName with
   | some cn => strContains cn "AI"
   | none => false) ||
  (m.getType == some "ai")

/-- JavaScript `array.slice(-n)`: the last `n` elements, or the whole
array when it has fewer than `n`.  The source uses `messages.slice(-5)`. -/
def lastN (n : Nat) (l : List Message) : List Message := l.drop (l.length - n)

/-- The `hasToolCalls` flag of strategy-analysis.ts lines 29-39:
whether `messages.slice(-5)` holds a message with a nonempty
`tool_calls` array or a message whose `name` holds a marker substring. -/
def toolDetect (messages : List Message) : Bool :=
  ((lastN 5 messages).find? msgHasToolCalls).isSome ||
  ((lastN 5 messages).find? msgNameMarker).isSome

/-- JavaScript `a || b` on a possibly-absent string `a`: falls through
to `b` when `a` is `undefined` or the empty string (both falsy). -/
def jsStrOr (a : Option String) (b : String) : String :=
  match a with
  | some s => if s = "" then b else s
  | none => b

/-- The `toolName` expression of strategy-analysis.ts line 59:
`toolCallMessage?.tool_calls?.[0]?.name || toolResponseMessage?.name || "unknown"`,
with `toolCallMessage` and `toolResponseMessage` the finds of lines 32-37
over the given window. -/
def resolvedToolName (lastMessages : List Message) : String :=
  let toolCallMessage := lastMessages.find? msgHasToolCalls
  let toolResponseMessage := lastMessages.find? msgNameMarker
  jsStrOr (toolCallMessage.bind (fun m => m.tool_calls.bind (fun tcs => tcs.head?.bind ToolCall.name)))
    (jsStrOr (toolResponseMessage.bind Message.name) "unknown")

/-- The `lastContent` of strategy-analysis.ts lines 42-45: the `content`
of the most recent message passing `isAiMessage` (found by scanning a
reversed copy), or absent when there is none. -/
def lastAiContentOf (messages : List Message) : MsgContent :=
  match messages.reverse.find? isAiMessage with
  | some m => m.content
  | none => MsgContent.undef

/-- The `parsedJson` local of strategy-analysis.ts lines 48-55:
`JSON.parse` of the last AI content when that content is a string and
parsing succeeds, absent otherwise. -/
def parsedJsonOf (messages : List Message) : Option Json :=
  match lastAiContentOf messages with
  | .str s => jsonParse s
  | _ => none

/-- JavaScript truthiness of the possibly-absent `parsedJson` local, as
tested by `if (parsedJson)` on line 68. -/
def optJsonTruthy : Option Json → Bool
  | some v => v.truthy
  | none => false

/-- The test of strategy-analysis.ts line 77:
`typeof lastContent === "string" && lastContent.length > 0`. -/
def contentNonEmptyStr : MsgContent → Bool
  | .str s => decide (0 < s.length)
  | _ => false

/-- Shallow embedding of `analyzeStructuredOutputStrategy`
(strategy-analysis.ts lines 25-90).  Branches appear in source order;
each helper is named after the local it embeds. -/
def analyzeStructuredOutputStrategy (messages : List Message) (structuredResponse : Option Json) :
    StrategyAnalysis :=
  if toolDetect messages then
    { strategy := .TOOL_CALLING,
      structuredOutputWorked := structuredResponse.isSome,
      details := "Tool calling strategy detected (tool: \"" ++ resolvedToolName (lastN 5 messages) ++ "\")",
      parsedJson := parsedJsonOf messages }
  else if optJsonTruthy (parsedJsonOf messages) then
    { strategy := .PROVIDER_JSON,
      structuredOutputWorked := structuredResponse.isSome || (parsedJsonOf messages).isSome,
      details := "Provider strategy - response is valid JSON",
      parsedJson := parsedJsonOf messages }
  else if contentNonEmptyStr (lastAiContentOf messages) then
    { strategy := .PROVIDER_NO_JSON,
      structuredOutputWorked := false,
      details := "Provider strategy attempted but response is NOT JSON (plain text/markdown)",
      parsedJson := none }
  else
    { strategy := .UNKNOWN,
      structuredOutputWorked := structuredResponse.isSome,
      details := "Could not determine strategy",
      parsedJson := none }

/-- JavaScript `Array.prototype.reverse`: reverses its receiver in
place and returns it; the pair is (returned array, receiver after the
call). -/
def jsArrayReverseInPlace (arr : List Message) : List Message × List Message :=
  (arr.reverse, arr.reverse)

/-- State-threaded mirror of `analyzeStructuredOutputStrategy` for the
frame property: the caller's `messages` array is threaded through the
call, and every array operation the source performs is modelled with
its JavaScript mutation behaviour.  `slice(-5)` and the spread
`[...messages]` allocate fresh arrays; `.reverse()` (the one mutating
operation used) is applied to the spread copy, never to `messages`
itself; `find` does not mutate.  The second component is the caller's
array after the call. -/
def analyzeTracked (messages : List Message) (structuredResponse : Option Json) :
    StrategyAnalysis × List Message :=
  let arrayState := messages
  let lastMessages := lastN 5 arrayState
  let spreadCopy := arrayState
  let reversedCopy := (jsArrayReverseInPlace spreadCopy).1
  let toolCallMessage := lastMessages.find? msgHasToolCalls
  let toolResponseMessage := lastMessages.find? msgNameMarker
  let hasToolCalls := toolCallMessage.isSome || toolResponseMessage.isSome
  let lastAiMessage := reversedCopy.find? isAiMessage
  let lastContent := match lastAiMessage with
    | some m => m.content
    | none => MsgContent.undef
  let parsedJson := match lastContent with
    | MsgContent.str s => jsonParse s
    | _ => none
  let result :=
    if hasToolCalls then
      { strategy := StrategyType.TOOL_CALLING,
        structuredOutputWorked := structuredResponse.isSome,
        details := "Tool calling strategy detected (tool: \"" ++ resolvedToolName lastMessages ++ "\")",
        parsedJson := parsedJson }
    else if optJsonTruthy parsedJson then
      { strategy := StrategyType.PROVIDER_JSON,
        structuredOutputWorked := structuredResponse.isSome || parsedJson.isSome,
        details := "Provider strategy - response is valid JSON",
        parsedJson := parsedJson }
    else if contentNonEmptyStr lastContent then
      { strategy := StrategyType.PROVIDER_NO_JSON,
        structuredOutputWorked := false,
        details := "Provider strategy attempted but response is NOT JSON (plain text/markdown)",
        parsedJson := none }
    else
      { strategy := StrategyType.UNKNOWN,
        structuredOutputWorked := structuredResponse.isSome,
        details := "Could not determine strategy",
        parsedJson := none }
  (result, arrayState)

/-- Display name of a strategy label, as interpolated on line 109. -/
def StrategyType.toDisplay : StrategyType → String
  | .TOOL_CALLING => "TOOL_CALLING"
  | .PROVIDER_JSON => "PROVIDER_JSON"
  | .PROVIDER_NO_JSON => "PROVIDER_NO_JSON"
  | .UNKNOWN => "UNKNOWN"

/-- JavaScript `Object.keys` on a parsed JSON value: own enumerable
keys for an object, index strings for an array or a string, empty for
primitives. -/
def objKeys : Json → List String
  | .obj fields => fields.map Prod.fst
  | .arr elems => (List.range elems.length).map (fun i => toString i)
  | .str s => (List.range s.length).map (fun i => toString i)
  | _ => []

/-- The `hasExpectedKeys` computation of strategy-analysis.ts line 122:
`schemaKeys.every(k => jsonKeys.includes(k))`.  (On arrays, JS
`includes` is element equality.) -/
def hasExpectedKeysB (jsonKeys schemaKeys : List String) : Bool :=
  schemaKeys.all (fun k => jsonKeys.contains k)

/-- The 50-character separator `"─".repeat(50)` of the report. -/
def sepLine : String := String.mk (List.replicate 50 '─')

/-- Shallow embedding of `logStrategyAnalysis` (strategy-analysis.ts
lines 99-138): the list of lines the function writes to the console,
one entry per `console.log` call, in order.  The key-comparison block
(lines 119-126) runs only when `analysis.parsedJson` is truthy, exactly
as `if (analysis.parsedJson)` does. -/
def logStrategyAnalysisLines (messages : List Message) (structuredResponse : Option Json)
    (schemaKeys : List String) : List String :=
  let analysis := analyzeStructuredOutputStrategy messages structuredResponse
  let keyLines :=
    match analysis.parsedJson with
    | some pj =>
      if pj.truthy then
        let jsonKeys := objKeys pj
        let hasExpectedKeys := hasExpectedKeysB jsonKeys schemaKeys
        ["\nParsed JSON keys: [" ++ String.intercalate ", " jsonKeys ++ "]",
         "Expected schema keys: [" ++ String.intercalate ", " schemaKeys ++ "]",
         "Schema match: " ++ (if hasExpectedKeys then "✅ YES" else "❌ NO")]
      else []
    | none => []
  let previewLines :=
    match messages.reverse.find? isAiMessage with
    | some m =>
      match m.content with
      | .str s =>
        if s = "" then []
        else
          ["\nLast AI message preview (first 200 chars):",
           "\"" ++ s.take 200 ++ (if decide (200 < s.length) then "..." else "") ++ "\""]
      | _ => []
    | none => []
  ["\n" ++ sepLine,
   "📊 STRATEGY ANALYSIS",
   sepLine,
   "Strategy Detected: " ++ analysis.strategy.toDisplay,
   "Details: " ++ analysis.details,
   "structuredResponse defined: " ++ toString structuredResponse.isSome]
  ++ (if analysis.structuredOutputWorked then ["✅ Structured output WORKED"]
      else ["❌ Structured output FAILED"])
  ++ keyLines ++ previewLines ++ [sepLine]

/-- A plain user message, as produced by the repository's demo scripts. -/
def userMsg (s : String) : Message :=
  { ctorName := some "HumanMessage", getType := some "human",
    content := .str s, tool_calls := none, name := none }

/-- An assistant message carrying only text content. -/
def aiTextMsg (s : String) : Message :=
  { ctorName := some "AIMessage", getType := some "ai",
    content := .str s, tool_calls := none, name := none }

/-- An assistant message carrying one tool invocation and empty content. -/
def aiToolMsg : Message :=
  { ctorName := some "AIMessage", getType := some "ai",
    content := .str "", tool_calls := some [{ name := some "tavily_search" }], name := none }

/-- An assistant message carrying both a tool invocation and content
that parses as JSON. -/
def aiToolJsonMsg : Message :=
  { ctorName := some "AIMessage", getType := some "ai",
    content := .str "\x7b\"a\":1\x7d", tool_calls := some [{ name := some "tavily_search" }],
    name := none }

/-- An assistant message whose content is a non-string content-block value. -/
def aiBlocksMsg : Message :=
  { ctorName := some "AIMessageChunk", getType := some "ai",
    content := .nonString (Json.arr [Json.str "block"]), tool_calls := none, name := none }

/-- A sample structured-result payload. -/
def exStructured : Json := Json.obj [("foo", Json.num 1 0)]

example : isAiMessage (userMsg "hi") = false := rfl
example : isAiMessage (aiTextMsg "hi") = true := rfl
example : msgHasToolCalls aiToolMsg = true := rfl

/-- A substring in the middle of a concatenation is contained in it. -/
theorem strContains_middle (a b c : String) : strContains (a ++ b ++ c) b = true := by
  unfold strContains
  rw [decide_eq_true_eq, String.data_append, String.data_append]
  exact ⟨a.data, c.data, by rw [List.append_assoc]⟩

/-- When the tool scan fails, the classifier never reports TOOL_CALLING. -/
theorem strategy_ne_tool_of_no_tool (messages : List Message) (sr : Option Json)
    (h : toolDetect messages = false) :
    (analyzeStructuredOutputStrategy messages sr).strategy ≠ StrategyType.TOOL_CALLING := by
  rcases Bool.eq_false_or_eq_true (optJsonTruthy (parsedJsonOf messages)) with h2 | h2 <;>
    rcases Bool.eq_false_or_eq_true (contentNonEmptyStr (lastAiContentOf messages)) with h3 | h3 <;>
    simp [analyzeStructuredOutputStrategy, h, h2, h3]

/-- Fixture for refuting claim C1: the last assistant content is the
valid JSON text `false`, whose parsed value is JS-falsy. -/
def c1CounterTrace : List Message := [aiTextMsg "false"]

/-- Fixture for the C1 witness: assistant content is the JSON text of
an empty object, a truthy parsed value. -/
def c1WitnessTrace : List Message := [aiTextMsg "\x7b\x7d"]

/-- Claim C1 as stated is false: with assistant content `"false"` — a
syntactically valid JSON text — and no tool invocation detected, the
classifier returns PROVIDER_NO_JSON (and records no parsed value), not
PROVIDER_JSON, because the source tests the parsed value for JS
truthiness (`if (parsedJson)`), not for parse success. -/
theorem c1_counterexample :
    jsonParse "false" = some (Json.bool false) ∧
    toolDetect c1CounterTrace = false ∧
    lastAiContentOf c1CounterTrace = MsgContent.str "false" ∧
    (analyzeStructuredOutputStrategy c1CounterTrace none).strategy = StrategyType.PROVIDER_NO_JSON ∧
    (analyzeStructuredOutputStrategy c1CounterTrace none).strategy ≠ StrategyType.PROVIDER_JSON ∧
    (analyzeStructuredOutputStrategy c1CounterTrace none).parsedJson = none :=
  ⟨rfl, rfl, rfl, rfl, by decide, rfl⟩

/-- Claim C1 (amended): for every trace whose most recent assistant
content is a syntactically valid JSON text parsing to a JS-truthy value
(not `null`, `false`, `0` or `""`), with no tool invocation detected,
the classifier returns PROVIDER_JSON, succeeded true, and the parsed
value as recovered JSON, for any value of the structured result. -/
theorem c1_provider_json_truthy (messages : List Message) (sr : Option Json) (s : String) (v : Json)
    (htool : toolDetect messages = false)
    (hcontent : lastAiContentOf messages = MsgContent.str s)
    (hparse : jsonParse s = some v)
    (htruthy : v.truthy = true) :
    analyzeStructuredOutputStrategy messages sr =
      { strategy := StrategyType.PROVIDER_JSON, structuredOutputWorked := true,
        details := "Provider strategy - response is valid JSON", parsedJson := some v } := by
  have hp : parsedJsonOf messages = some v := by
    unfold parsedJsonOf
    rw [hcontent]
    exact hparse
  unfold analyzeStructuredOutputStrategy
  rw [htool, hp]
  simp [optJsonTruthy, htruthy]

/-- Witness for the amended C1 at the concrete trace `[assistant "{}"]`. -/
theorem c1_provider_json_truthy_witness :
    toolDetect c1WitnessTrace = false ∧
    lastAiContentOf c1WitnessTrace = MsgContent.str "\x7b\x7d" ∧
    jsonParse "\x7b\x7d" = some (Json.obj []) ∧
    (Json.obj []).truthy = true ∧
    analyzeStructuredOutputStrategy c1WitnessTrace none =
      { strategy := StrategyType.PROVIDER_JSON, structuredOutputWorked := true,
        details := "Provider strategy - response is valid JSON", parsedJson := some (Json.obj []) } :=
  ⟨rfl, rfl, rfl, rfl,
   c1_provider_json_truthy c1WitnessTrace none "\x7b\x7d" (Json.obj []) rfl rfl rfl rfl⟩

/-- Fixture refuting claim C2: six messages where only the first (an
assistant message) carries a tool invocation; the five that follow push
it out of the `slice(-5)` scan window. -/
def c2CounterTrace : List Message :=
  aiToolMsg :: [userMsg "a", userMsg "b", userMsg "c", userMsg "d", userMsg "e"]

/-- Claim C2 as stated is false: a trace containing an assistant
message with a tool invocation at a position outside the last five
messages is classified UNKNOWN, not TOOL_CALLING, because the source
scans only `messages.slice(-5)`. -/
theorem c2_counterexample :
    aiToolMsg ∈ c2CounterTrace ∧
    isAiMessage aiToolMsg = true ∧
    msgHasToolCalls aiToolMsg = true ∧
    (analyzeStructuredOutputStrategy c2CounterTrace none).strategy = StrategyType.UNKNOWN ∧
    (analyzeStructuredOutputStrategy c2CounterTrace none).strategy ≠ StrategyType.TOOL_CALLING :=
  ⟨List.mem_cons_self _ _, rfl, rfl, rfl, by decide⟩

/-- Claim C2 (amended): for every trace containing, among its last five
messages, an assistant message with at least one tool invocation, the
classifier returns TOOL_CALLING regardless of the messages' content,
and succeeded equals whether the structured result is present. -/
theorem c2_tool_call_in_window (messages : List Message) (sr : Option Json) (m : Message)
    (hmem : m ∈ lastN 5 messages) (_hai : isAiMessage m = true) (htc : msgHasToolCalls m = true) :
    (analyzeStructuredOutputStrategy messages sr).strategy = StrategyType.TOOL_CALLING ∧
    (analyzeStructuredOutputStrategy messages sr).structuredOutputWorked = sr.isSome := by
  have htool : toolDetect messages = true := by
    unfold toolDetect
    have hsome : ((lastN 5 messages).find? msgHasToolCalls).isSome :=
      List.find?_isSome.mpr ⟨m, hmem, htc⟩
    simp [hsome]
  unfold analyzeStructuredOutputStrategy
  rw [htool]
  simp

/-- Witness for the amended C2 at the concrete one-message trace. -/
theorem c2_tool_call_in_window_witness :
    aiToolMsg ∈ lastN 5 [aiToolMsg] ∧
    isAiMessage aiToolMsg = true ∧
    msgHasToolCalls aiToolMsg = true ∧
    ((analyzeStructuredOutputStrategy [aiToolMsg] (some exStructured)).strategy = StrategyType.TOOL_CALLING ∧
     (analyzeStructuredOutputStrategy [aiToolMsg] (some exStructured)).structuredOutputWorked =
       (some exStructured).isSome) := by
  have hmem : aiToolMsg ∈ lastN 5 [aiToolMsg] := List.mem_cons_self _ _
  exact ⟨hmem, rfl, rfl, c2_tool_call_in_window [aiToolMsg] (some exStructured) aiToolMsg hmem rfl rfl⟩

/-- Claim C3: the tool-calling scan examines exactly `messages.slice(-5)`.
Conjuncts: (1) the scan fires iff the classifier reports TOOL_CALLING
(so the rule wins even when the assistant content also parses as JSON);
(2) when it fires, succeeded equals presence of the structured result
and the rationale contains the resolved tool name; (3) the scan ignores
everything before the last five messages; (4) an assistant message with
a tool invocation, or a message whose name carries a marker substring,
inside the window makes the scan fire; (5) with no tool call and no
`name` field in the window, the resolved tool name is `"unknown"`. -/
theorem c3_scan_window :
    (∀ (messages : List Message) (sr : Option Json),
        toolDetect messages = true ↔
        (analyzeStructuredOutputStrategy messages sr).strategy = StrategyType.TOOL_CALLING) ∧
    (∀ (messages : List Message) (sr : Option Json),
        toolDetect messages = true →
        (analyzeStructuredOutputStrategy messages sr).structuredOutputWorked = sr.isSome ∧
        strContains (analyzeStructuredOutputStrategy messages sr).details
          (resolvedToolName (lastN 5 messages)) = true) ∧
    (∀ pre rest : List Message, rest.length = 5 → toolDetect (pre ++ rest) = toolDetect rest) ∧
    (∀ (messages : List Message) (m : Message), m ∈ lastN 5 messages →
        (isAiMessage m = true ∧ msgHasToolCalls m = true) ∨ msgNameMarker m = true →
        toolDetect messages = true) ∧
    (∀ lastMessages : List Message,
        (∀ m ∈ lastMessages, msgHasToolCalls m = false ∧ m.name = none) →
        resolvedToolName lastMessages = "unknown") := by
  refine ⟨?_, ?_, ?_, ?_, ?_⟩
  · intro messages sr
    constructor
    · intro h
      unfold analyzeStructuredOutputStrategy
      rw [h]
      rfl
    · intro h
      by_contra hfalse
      exact strategy_ne_tool_of_no_tool messages sr (Bool.eq_false_iff.mpr hfalse) h
  · intro messages sr h
    unfold analyzeStructuredOutputStrategy
    rw [h]
    constructor
    · rfl
    · exact strContains_middle "Tool calling strategy detected (tool: \""
        (resolvedToolName (lastN 5 messages)) "\")"
  · intro pre rest hlen
    have h5 : lastN 5 (pre ++ rest) = rest := by
      unfold lastN
      rw [List.length_append, hlen, Nat.add_sub_cancel]
      exact List.drop_left pre rest
    have h6 : lastN 5 rest = rest := by
      unfold lastN
      rw [hlen, Nat.sub_self]
      exact List.drop_zero rest
    unfold toolDetect
    rw [h5, h6]
  · intro messages m hmem hcase
    unfold toolDetect
    rcases hcase with ⟨_, htc⟩ | hmark
    · have hsome : ((lastN 5 messages).find? msgHasToolCalls).isSome :=
        List.find?_isSome.mpr ⟨m, hmem, htc⟩
      simp [hsome]
    · have hsome : ((lastN 5 messages).find? msgNameMarker).isSome :=
        List.find?_isSome.mpr ⟨m, hmem, hmark⟩
      simp [hsome]
  · intro lastMessages hall
    unfold resolvedToolName
    have h1 : lastMessages.find? msgHasToolCalls = none :=
      List.find?_eq_none.mpr (fun m hm => by simp [(hall m hm).1])
    have h2 : lastMessages.find? msgNameMarker = none :=
      List.find?_eq_none.mpr (fun m hm => by simp [msgNameMarker, (hall m hm).2])
    rw [h1, h2]
    rfl

/-- Witness for C3 at a concrete trace whose assistant message has both
a tool invocation and JSON-parseable content. -/
theorem c3_scan_window_witness :
    toolDetect [userMsg "hi", aiToolJsonMsg] = true ∧
    ((analyzeStructuredOutputStrategy [userMsg "hi", aiToolJsonMsg] (some exStructured)).structuredOutputWorked =
       (some exStructured).isSome ∧
     strContains (analyzeStructuredOutputStrategy [userMsg "hi", aiToolJsonMsg] (some exStructured)).details
       (resolvedToolName (lastN 5 [userMsg "hi", aiToolJsonMsg])) = true) :=
  ⟨rfl, c3_scan_window.2.1 [userMsg "hi", aiToolJsonMsg] (some exStructured) rfl⟩

/-- Fixture for C4: assistant content is the JSON object with keys
`title` and `year` only. -/
def c4Trace : List Message := [aiTextMsg "\x7b\"title\":\"x\",\"year\":1\x7d"]

/-- The recovered JSON of the C4 fixture. -/
def c4Json : Json := Json.obj [("title", Json.str "x"), ("year", Json.num 1 0)]

/-- The report lines of the C4 fixture against expected keys
`["title","year","genre"]`. -/
def c4Lines : List String := logStrategyAnalysisLines c4Trace none ["title", "year", "genre"]

set_option maxRecDepth 100000 in
/-- Claim C4: the key comparison reports whether every expected key is
a member of the recovered JSON's key list (order-insensitive,
case-sensitive string equality), and on the fixture with recovered JSON
`(title: x, year: 1)` and expected keys `title, year, genre` the report
shows both key lists, states the match is NO, and the one expected key
missing from the recovered keys is `genre`. -/
theorem c4_key_match_report :
    (∀ jsonKeys schemaKeys : List String,
        hasExpectedKeysB jsonKeys schemaKeys = true ↔ ∀ k ∈ schemaKeys, k ∈ jsonKeys) ∧
    ((analyzeStructuredOutputStrategy c4Trace none).parsedJson = some c4Json ∧
     objKeys c4Json = ["title", "year"] ∧
     hasExpectedKeysB (objKeys c4Json) ["title", "year", "genre"] = false ∧
     ("genre" ∈ (["title", "year", "genre"] : List String) ∧ "genre" ∉ objKeys c4Json ∧
      "title" ∈ objKeys c4Json ∧ "year" ∈ objKeys c4Json) ∧
     "Schema match: ❌ NO" ∈ c4Lines ∧
     "Expected schema keys: [title, year, genre]" ∈ c4Lines ∧
     "\nParsed JSON keys: [title, year]" ∈ c4Lines) := by
  constructor
  · intro jsonKeys schemaKeys
    simp [hasExpectedKeysB, List.all_eq_true]
  · exact ⟨rfl, rfl, by decide, ⟨by decide, by decide, by decide, by decide⟩,
      by decide, by decide, by decide⟩

/-- Witness for C4: the general key-comparison conjunct applied at
concrete key lists. -/
theorem c4_key_match_report_witness :
    ∀ k ∈ (["title"] : List String), k ∈ (["title", "year"] : List String) :=
  (c4_key_match_report.1 ["title", "year"] ["title"]).mp (by decide)

/-- Fixture for C5: non-empty assistant prose that is not JSON. -/
def c5Trace : List Message := [aiTextMsg "Here is my answer in prose."]

/-- Claim C5: with no tool invocation detected and a most recent
assistant content that is a non-empty string failing to parse as JSON,
the classifier returns PROVIDER_NO_JSON with succeeded false, for any
structured result. -/
theorem c5_provider_no_json (messages : List Message) (sr : Option Json) (s : String)
    (htool : toolDetect messages = false)
    (hcontent : lastAiContentOf messages = MsgContent.str s)
    (hne : s ≠ "")
    (hparse : jsonParse s = none) :
    analyzeStructuredOutputStrategy messages sr =
      { strategy := StrategyType.PROVIDER_NO_JSON, structuredOutputWorked := false,
        details := "Provider strategy attempted but response is NOT JSON (plain text/markdown)",
        parsedJson := none } := by
  have hp : parsedJsonOf messages = none := by
    unfold parsedJsonOf
    rw [hcontent]
    exact hparse
  have hlen : contentNonEmptyStr (lastAiContentOf messages) = true := by
    rw [hcontent]
    show decide (0 < s.length) = true
    rw [decide_eq_true_eq]
    have hne2 : s.data ≠ [] := fun hnil => hne (String.ext (by rw [hnil]))
    exact List.length_pos.mpr hne2
  unfold analyzeStructuredOutputStrategy
  rw [htool, hp, hlen]
  simp [optJsonTruthy]

/-- Witness for C5 at the concrete prose trace. -/
theorem c5_provider_no_json_witness :
    toolDetect c5Trace = false ∧
    lastAiContentOf c5Trace = MsgContent.str "Here is my answer in prose." ∧
    "Here is my answer in prose." ≠ "" ∧
    jsonParse "Here is my answer in prose." = none ∧
    analyzeStructuredOutputStrategy c5Trace none =
      { strategy := StrategyType.PROVIDER_NO_JSON, structuredOutputWorked := false,
        details := "Provider strategy attempted but response is NOT JSON (plain text/markdown)",
        parsedJson := none } :=
  ⟨rfl, rfl, by decide, rfl,
   c5_provider_no_json c5Trace none "Here is my answer in prose." rfl rfl (by decide) rfl⟩

/-- Claim C6: with no tool invocation detected and no assistant content
(no assistant message found, or its content absent or the empty
string), the classifier returns UNKNOWN with succeeded equal to whether
the structured result is present; the empty trace is the special case
`lastAiContentOf [] = undef`. -/
theorem c6_unknown_no_content (messages : List Message) (sr : Option Json)
    (htool : toolDetect messages = false)
    (hcontent : lastAiContentOf messages = MsgContent.undef ∨
                lastAiContentOf messages = MsgContent.str "") :
    analyzeStructuredOutputStrategy messages sr =
      { strategy := StrategyType.UNKNOWN, structuredOutputWorked := sr.isSome,
        details := "Could not determine strategy", parsedJson := none } := by
  have hp : parsedJsonOf messages = none := by
    unfold parsedJsonOf
    rcases hcontent with h | h
    · rw [h]
    · rw [h]
      rfl
  have hc : contentNonEmptyStr (lastAiContentOf messages) = false := by
    rcases hcontent with h | h
    · rw [h]
      rfl
    · rw [h]
      rfl
  unfold analyzeStructuredOutputStrategy
  rw [htool, hp, hc]
  simp [optJsonTruthy]

/-- Witness for C6: the empty trace with a present structured result is
classified UNKNOWN with succeeded true (spec example 4). -/
theorem c6_unknown_no_content_witness :
    toolDetect [] = false ∧
    lastAiContentOf [] = MsgContent.undef ∧
    analyzeStructuredOutputStrategy [] (some exStructured) =
      { strategy := StrategyType.UNKNOWN, structuredOutputWorked := true,
        details := "Could not determine strategy", parsedJson := none } :=
  ⟨rfl, rfl, c6_unknown_no_content [] (some exStructured) rfl (Or.inl rfl)⟩

/-- Fixture for C7: assistant content that `JSON.parse` rejects. -/
def c7Trace : List Message := [aiTextMsg "not json!"]

/-- Claim C7: the classifier is total — every input yields one of the
four defined strategies — and a JSON parse failure on the assistant
content is absorbed, routing the classification to PROVIDER_NO_JSON or
UNKNOWN rather than propagating an error. -/
theorem c7_total_no_error :
    (∀ (messages : List Message) (sr : Option Json),
        (analyzeStructuredOutputStrategy messages sr).strategy = StrategyType.TOOL_CALLING ∨
        (analyzeStructuredOutputStrategy messages sr).strategy = StrategyType.PROVIDER_JSON ∨
        (analyzeStructuredOutputStrategy messages sr).strategy = StrategyType.PROVIDER_NO_JSON ∨
        (analyzeStructuredOutputStrategy messages sr).strategy = StrategyType.UNKNOWN) ∧
    (∀ (messages : List Message) (sr : Option Json) (s : String),
        toolDetect messages = false →
        lastAiContentOf messages = MsgContent.str s →
        jsonParse s = none →
        (analyzeStructuredOutputStrategy messages sr).strategy = StrategyType.PROVIDER_NO_JSON ∨
        (analyzeStructuredOutputStrategy messages sr).strategy = StrategyType.UNKNOWN) := by
  constructor
  · intro messages sr
    cases h : (analyzeStructuredOutputStrategy messages sr).strategy <;> simp
  · intro messages sr s htool hcontent hparse
    have hp : parsedJsonOf messages = none := by
      unfold parsedJsonOf
      rw [hcontent]
      exact hparse
    rcases Bool.eq_false_or_eq_true (contentNonEmptyStr (lastAiContentOf messages)) with h3 | h3 <;>
      simp [analyzeStructuredOutputStrategy, htool, hp, h3, optJsonTruthy]

/-- Witness for C7 at a concrete unparseable trace. -/
theorem c7_total_no_error_witness :
    ((analyzeStructuredOutputStrategy c7Trace none).strategy = StrategyType.TOOL_CALLING ∨
     (analyzeStructuredOutputStrategy c7Trace none).strategy = StrategyType.PROVIDER_JSON ∨
     (analyzeStructuredOutputStrategy c7Trace none).strategy = StrategyType.PROVIDER_NO_JSON ∨
     (analyzeStructuredOutputStrategy c7Trace none).strategy = StrategyType.UNKNOWN) ∧
    ((analyzeStructuredOutputStrategy c7Trace none).strategy = StrategyType.PROVIDER_NO_JSON ∨
     (analyzeStructuredOutputStrategy c7Trace none).strategy = StrategyType.UNKNOWN) :=
  ⟨c7_total_no_error.1 c7Trace none,
   c7_total_no_error.2 c7Trace none "not json!" rfl rfl rfl⟩

/-- Claim C8: the classifier is deterministic and pure — two calls with
equal trace and structured-result inputs yield equal classification
records, the result depending on nothing else. -/
theorem c8_deterministic (t1 t2 : List Message) (s1 s2 : Option Json)
    (ht : t1 = t2) (hs : s1 = s2) :
    analyzeStructuredOutputStrategy t1 s1 = analyzeStructuredOutputStrategy t2 s2 := by
  rw [ht, hs]

/-- Witness for C8 at a concrete repeated call. -/
theorem c8_deterministic_witness :
    analyzeStructuredOutputStrategy [aiToolMsg] none = analyzeStructuredOutputStrategy [aiToolMsg] none :=
  c8_deterministic [aiToolMsg] [aiToolMsg] none none rfl rfl

/-- Claim C9: the classifier does not mutate its inputs.  In the
state-threaded mirror, where `slice(-5)` and spread copy and the one
mutating operation (`reverse`) is applied only to the spread copy, the
caller's message array after the call equals the array passed in, and
the mirrored computation returns exactly the classifier's result. -/
theorem c9_no_mutation (messages : List Message) (sr : Option Json) :
    (analyzeTracked messages sr).2 = messages ∧
    (analyzeTracked messages sr).1 = analyzeStructuredOutputStrategy messages sr :=
  ⟨rfl, rfl⟩

/-- Fixture for C10: the most recent assistant message carries
content-block (non-string) content. -/
def c10Trace : List Message := [aiBlocksMsg]

/-- Claim C10: with no tool invocation detected and a most recent
assistant message whose content is not a text string, no JSON parse is
attempted (the parsed-JSON local stays absent) and the classifier
returns UNKNOWN with succeeded equal to presence of the structured
result and no recovered JSON in the record. -/
theorem c10_nonstring_content (messages : List Message) (sr : Option Json) (v : Json)
    (htool : toolDetect messages = false)
    (hcontent : lastAiContentOf messages = MsgContent.nonString v) :
    parsedJsonOf messages = none ∧
    analyzeStructuredOutputStrategy messages sr =
      { strategy := StrategyType.UNKNOWN, structuredOutputWorked := sr.isSome,
        details := "Could not determine strategy", parsedJson := none } := by
  have hp : parsedJsonOf messages = none := by
    unfold parsedJsonOf
    rw [hcontent]
  have hc : contentNonEmptyStr (lastAiContentOf messages) = false := by
    rw [hcontent]
    rfl
  refine ⟨hp, ?_⟩
  unfold analyzeStructuredOutputStrategy
  rw [htool, hp, hc]
  simp [optJsonTruthy]

/-- Witness for C10 at a concrete content-block trace. -/
theorem c10_nonstring_content_witness :
    toolDetect c10Trace = false ∧
    lastAiContentOf c10Trace = MsgContent.nonString (Json.arr [Json.str "block"]) ∧
    (parsedJsonOf c10Trace = none ∧
     analyzeStructuredOutputStrategy c10Trace (some exStructured) =
       { strategy := StrategyType.UNKNOWN, structuredOutputWorked := true,
         details := "Could not determine strategy", parsedJson := none }) :=
  ⟨rfl, rfl, c10_nonstring_content c10Trace (some exStructured) (Json.arr [Json.str "block"]) rfl rfl⟩
